import Mathlib

/-!
# Verification of the CardioSim 10-year ASCVD risk model

A shallow embedding of `risk_pce2013.py` (the Pooled Cohort Equations 2013
risk model) and of the pure helpers of `app.py` (`compute_drivers`,
`compute_timeline`), with theorems settling the specification claims.

Python floats are modelled as real numbers; `math.log`, `math.exp` and `**`
become `Real.log`, `Real.exp` and real `rpow`.  Python's `round(x, 1)`
(correct decimal rounding with ties to even) is modelled by exact
round-half-to-even on `ℝ`.  Python's `list.sort(key=abs ∘ snd, reverse=True)`
is a stable descending sort, modelled by a stable insertion sort.
-/

open Classical Real

/-! ## Data model (`risk_pce2013.py`) -/

inductive Sex where
  | female
  | male
  deriving DecidableEq, Repr

inductive Race where
  | black
  | white_or_other
  deriving DecidableEq, Repr

structure RiskInputs where
  age_years : ℝ
  sex : Sex
  race : Race
  total_chol_mgdl : ℝ
  hdl_mgdl : ℝ
  sbp_mmhg : ℝ
  on_bp_meds : Bool
  smoker : Bool
  diabetes : Bool

/-- The `details` dict of the Python result, as a structure. -/
structure RiskDetails where
  group : String
  linear_predictor : ℝ
  s0 : ℝ
  mean : ℝ

structure RiskResult where
  risk_pct_10y : Option ℝ
  details : Option RiskDetails

/-! ## Rounding

Python's `round(x, 1)` rounds to the nearest multiple of `0.1`, ties to even
(banker's rounding).  `roundHalfEven` is round-half-to-even to the nearest
integer; `_round1` scales by 10. -/

noncomputable def roundHalfEven (x : ℝ) : ℤ :=
  if Int.fract x = 1 / 2 then (if Even ⌊x⌋ then ⌊x⌋ else ⌊x⌋ + 1) else round x

noncomputable def _round1 (x : ℝ) : ℝ :=
  (roundHalfEven (x * 10) : ℝ) / 10

/-! ## The risk model (`compute_10y_ascvd_pce2013`) -/

/-- Treated log-SBP channel: `math.log(inp.sbp_mmhg) if inp.on_bp_meds else 0.0`. -/
noncomputable def tr_ln_sbp (inp : RiskInputs) : ℝ :=
  if inp.on_bp_meds then Real.log inp.sbp_mmhg else 0

/-- Untreated log-SBP channel: `0.0 if inp.on_bp_meds else math.log(inp.sbp_mmhg)`. -/
noncomputable def nt_ln_sbp (inp : RiskInputs) : ℝ :=
  if inp.on_bp_meds then 0 else Real.log inp.sbp_mmhg

noncomputable def compute_10y_ascvd_pce2013 (inp : RiskInputs) : RiskResult :=
  -- PCE 10-year risk is defined/validated for ages 40–79
  if inp.age_years < 40 ∨ inp.age_years > 79 then
    { risk_pct_10y := none, details := none }
  else
    let ln_age := Real.log inp.age_years
    let ln_tc := Real.log inp.total_chol_mgdl
    let ln_hdl := Real.log inp.hdl_mgdl
    -- Treated vs untreated SBP handling
    let tr := tr_ln_sbp inp
    let nt := nt_ln_sbp inp
    let age_tc := ln_age * ln_tc
    let age_hdl := ln_age * ln_hdl
    let age_tr_sbp := ln_age * tr
    let age_nt_sbp := ln_age * nt
    let age_smoke := if inp.smoker then ln_age else 0
    let is_black := inp.race = Race.black
    let is_male := inp.sex = Sex.male
    -- Risk = 1 - S0 ** exp(lp - mean)
    let gd : String × ℝ × ℝ × ℝ :=
      if is_black ∧ ¬is_male then
        ("black_female", 0.95334, 86.6081,
          17.1141 * ln_age
          + 0.9396 * ln_tc
          - 18.9196 * ln_hdl
          + 4.4748 * age_hdl
          + 29.2907 * tr
          - 6.4321 * age_tr_sbp
          + 27.8197 * nt
          - 6.0873 * age_nt_sbp
          + 0.6908 * (if inp.smoker then (1 : ℝ) else 0)
          + 0.8738 * (if inp.diabetes then (1 : ℝ) else 0))
      else if ¬is_black ∧ ¬is_male then
        ("white_female", 0.96652, -29.1817,
          -29.799 * ln_age
          + 4.884 * ln_age ^ 2
          + 13.54 * ln_tc
          - 3.114 * age_tc
          - 13.578 * ln_hdl
          + 3.149 * age_hdl
          + 2.019 * tr
          + 1.957 * nt
          + 7.574 * (if inp.smoker then (1 : ℝ) else 0)
          - 1.665 * age_smoke
          + 0.661 * (if inp.diabetes then (1 : ℝ) else 0))
      else if is_black ∧ is_male then
        ("black_male", 0.89536, 19.5425,
          2.469 * ln_age
          + 0.302 * ln_tc
          - 0.307 * ln_hdl
          + 1.916 * tr
          + 1.809 * nt
          + 0.549 * (if inp.smoker then (1 : ℝ) else 0)
          + 0.645 * (if inp.diabetes then (1 : ℝ) else 0))
      else
        ("white_male", 0.91436, 61.1816,
          12.344 * ln_age
          + 11.853 * ln_tc
          - 2.664 * age_tc
          - 7.99 * ln_hdl
          + 1.769 * age_hdl
          + 1.797 * tr
          + 1.764 * nt
          + 7.837 * (if inp.smoker then (1 : ℝ) else 0)
          - 1.795 * age_smoke
          + 0.658 * (if inp.diabetes then (1 : ℝ) else 0))
    let risk : ℝ := 1 - gd.2.1 ^ Real.exp (gd.2.2.2 - gd.2.2.1)
    { risk_pct_10y := some (_round1 (100 * risk)),
      details := some { group := gd.1, linear_predictor := gd.2.2.2,
                        s0 := gd.2.1, mean := gd.2.2.1 } }

/-! ## Group tables

Claim-facing restatement of the four coefficient sets as a lookup keyed by
`(race, sex)`, to be proven to agree with the branch logic above. -/

def groupLabel : Race → Sex → String
  | Race.black, Sex.female => "black_female"
  | Race.white_or_other, Sex.female => "white_female"
  | Race.black, Sex.male => "black_male"
  | Race.white_or_other, Sex.male => "white_male"

noncomputable def groupS0 : Race → Sex → ℝ
  | Race.black, Sex.female => 0.95334
  | Race.white_or_other, Sex.female => 0.96652
  | Race.black, Sex.male => 0.89536
  | Race.white_or_other, Sex.male => 0.91436

noncomputable def groupMean : Race → Sex → ℝ
  | Race.black, Sex.female => 86.6081
  | Race.white_or_other, Sex.female => -29.1817
  | Race.black, Sex.male => 19.5425
  | Race.white_or_other, Sex.male => 61.1816

/-- The linear predictor of the selected group, written out with the
literal published coefficients. -/
noncomputable def lpOf (inp : RiskInputs) : ℝ :=
  match inp.race, inp.sex with
  | Race.black, Sex.female =>
      17.1141 * Real.log inp.age_years
      + 0.9396 * Real.log inp.total_chol_mgdl
      - 18.9196 * Real.log inp.hdl_mgdl
      + 4.4748 * (Real.log inp.age_years * Real.log inp.hdl_mgdl)
      + 29.2907 * tr_ln_sbp inp
      - 6.4321 * (Real.log inp.age_years * tr_ln_sbp inp)
      + 27.8197 * nt_ln_sbp inp
      - 6.0873 * (Real.log inp.age_years * nt_ln_sbp inp)
      + 0.6908 * (if inp.smoker then (1 : ℝ) else 0)
      + 0.8738 * (if inp.diabetes then (1 : ℝ) else 0)
  | Race.white_or_other, Sex.female =>
      -29.799 * Real.log inp.age_years
      + 4.884 * Real.log inp.age_years ^ 2
      + 13.54 * Real.log inp.total_chol_mgdl
      - 3.114 * (Real.log inp.age_years * Real.log inp.total_chol_mgdl)
      - 13.578 * Real.log inp.hdl_mgdl
      + 3.149 * (Real.log inp.age_years * Real.log inp.hdl_mgdl)
      + 2.019 * tr_ln_sbp inp
      + 1.957 * nt_ln_sbp inp
      + 7.574 * (if inp.smoker then (1 : ℝ) else 0)
      - 1.665 * (if inp.smoker then Real.log inp.age_years else 0)
      + 0.661 * (if inp.diabetes then (1 : ℝ) else 0)
  | Race.black, Sex.male =>
      2.469 * Real.log inp.age_years
      + 0.302 * Real.log inp.total_chol_mgdl
      - 0.307 * Real.log inp.hdl_mgdl
      + 1.916 * tr_ln_sbp inp
      + 1.809 * nt_ln_sbp inp
      + 0.549 * (if inp.smoker then (1 : ℝ) else 0)
      + 0.645 * (if inp.diabetes then (1 : ℝ) else 0)
  | Race.white_or_other, Sex.male =>
      12.344 * Real.log inp.age_years
      + 11.853 * Real.log inp.total_chol_mgdl
      - 2.664 * (Real.log inp.age_years * Real.log inp.total_chol_mgdl)
      - 7.99 * Real.log inp.hdl_mgdl
      + 1.769 * (Real.log inp.age_years * Real.log inp.hdl_mgdl)
      + 1.797 * tr_ln_sbp inp
      + 1.764 * nt_ln_sbp inp
      + 7.837 * (if inp.smoker then (1 : ℝ) else 0)
      - 1.795 * (if inp.smoker then Real.log inp.age_years else 0)
      + 0.658 * (if inp.diabetes then (1 : ℝ) else 0)

/-! ## App-layer helpers (`app.py`) -/

noncomputable def risk_or_none (inp : RiskInputs) : Option ℝ :=
  (compute_10y_ascvd_pce2013 inp).risk_pct_10y

def _lerp (a b t : ℝ) : ℝ := a + (b - a) * t

/-- The candidate fields examined by `compute_drivers`, in source order. -/
inductive DriverField where
  | smoker
  | sbp_mmhg
  | on_bp_meds
  | total_chol_mgdl
  | hdl_mgdl
  | diabetes
  deriving DecidableEq, Repr

def driverLabel : DriverField → String
  | .smoker => "Smoking"
  | .sbp_mmhg => "Systolic BP"
  | .on_bp_meds => "BP medication"
  | .total_chol_mgdl => "Total cholesterol"
  | .hdl_mgdl => "HDL"
  | .diabetes => "Diabetes"

def driverCandidates : List DriverField :=
  [.smoker, .sbp_mmhg, .on_bp_meds, .total_chol_mgdl, .hdl_mgdl, .diabetes]

/-- `b[key] != s[key]` for one candidate field. -/
def fieldChanged (b s : RiskInputs) : DriverField → Prop
  | .smoker => b.smoker ≠ s.smoker
  | .sbp_mmhg => b.sbp_mmhg ≠ s.sbp_mmhg
  | .on_bp_meds => b.on_bp_meds ≠ s.on_bp_meds
  | .total_chol_mgdl => b.total_chol_mgdl ≠ s.total_chol_mgdl
  | .hdl_mgdl => b.hdl_mgdl ≠ s.hdl_mgdl
  | .diabetes => b.diabetes ≠ s.diabetes

/-- `with_one_change`: the baseline with exactly one field swapped to the
scenario's value. -/
def with_one_change (b s : RiskInputs) : DriverField → RiskInputs
  | .smoker => { b with smoker := s.smoker }
  | .sbp_mmhg => { b with sbp_mmhg := s.sbp_mmhg }
  | .on_bp_meds => { b with on_bp_meds := s.on_bp_meds }
  | .total_chol_mgdl => { b with total_chol_mgdl := s.total_chol_mgdl }
  | .hdl_mgdl => { b with hdl_mgdl := s.hdl_mgdl }
  | .diabetes => { b with diabetes := s.diabetes }

/-- Stable insertion into a descending-by-`|snd|` sorted list; an element is
placed before the first strictly smaller key, after equal keys seen so far,
which is exactly the placement of a stable descending sort. -/
noncomputable def insertDesc (x : String × ℝ) : List (String × ℝ) → List (String × ℝ)
  | [] => [x]
  | y :: ys => if |y.2| ≤ |x.2| then x :: y :: ys else y :: insertDesc x ys

/-- `changes.sort(key=lambda x: abs(x[1]), reverse=True)`: a stable sort by
descending absolute value of the second component. -/
noncomputable def sortDesc : List (String × ℝ) → List (String × ℝ)
  | [] => []
  | x :: xs => insertDesc x (sortDesc xs)

noncomputable def compute_drivers (base scen : RiskInputs) : List (String × ℝ) :=
  match risk_or_none base, risk_or_none scen with
  | some base_r, some _ =>
      sortDesc <| driverCandidates.filterMap fun k =>
        if fieldChanged base scen k then
          match risk_or_none (with_one_change base scen k) with
          | some r => some (driverLabel k, r - base_r)
          | none => none
        else none
  | _, _ => []

/-- One interpolated snapshot of `compute_timeline`'s loop body. -/
noncomputable def timelineStep (base scen : RiskInputs) (months m : ℕ) : RiskInputs :=
  let t : ℝ := if 0 < months then (m : ℝ) / (months : ℝ) else 1
  { age_years := base.age_years  -- age doesn't change for short timeline
    sex := base.sex
    race := base.race
    total_chol_mgdl := _lerp base.total_chol_mgdl scen.total_chol_mgdl t
    hdl_mgdl := _lerp base.hdl_mgdl scen.hdl_mgdl t
    sbp_mmhg := _lerp base.sbp_mmhg scen.sbp_mmhg t
    on_bp_meds := if t ≥ 0.5 then scen.on_bp_meds else base.on_bp_meds
    smoker := if t ≥ 0.5 then scen.smoker else base.smoker
    diabetes := scen.diabetes }  -- typically unchanged by our interventions

noncomputable def compute_timeline (base scen : RiskInputs) (months : ℕ) :
    List (ℕ × Option ℝ) :=
  (List.range (months + 1)).map fun m =>
    (m, risk_or_none (timelineStep base scen months m))

/-- The app's "Typical" preset, used as a concrete sample input. -/
noncomputable def typicalInputs : RiskInputs :=
  { age_years := 55
    sex := Sex.female
    race := Race.white_or_other
    total_chol_mgdl := 213
    hdl_mgdl := 50
    sbp_mmhg := 120
    on_bp_meds := false
    smoker := false
    diabetes := false }

/-! ## An exception-aware evaluation (`math.log` raises on non-positive input)

`logE` models Python's `math.log`, which raises `ValueError("math domain
error")` for a non-positive argument.  `computeE` re-traces
`compute_10y_ascvd_pce2013` with every `math.log` call checked, in source
order, so that a claim about the reachability of the domain-error branch can
be stated. -/

noncomputable def logE (x : ℝ) : Except String ℝ :=
  if 0 < x then Except.ok (Real.log x) else Except.error "math domain error"

noncomputable def computeE (inp : RiskInputs) : Except String RiskResult :=
  if inp.age_years < 40 ∨ inp.age_years > 79 then
    Except.ok { risk_pct_10y := none, details := none }
  else do
    let ln_age ← logE inp.age_years
    let ln_tc ← logE inp.total_chol_mgdl
    let ln_hdl ← logE inp.hdl_mgdl
    let tr ← if inp.on_bp_meds then logE inp.sbp_mmhg else pure 0
    let nt ← if inp.on_bp_meds then pure 0 else logE inp.sbp_mmhg
    let age_tc := ln_age * ln_tc
    let age_hdl := ln_age * ln_hdl
    let age_tr_sbp := ln_age * tr
    let age_nt_sbp := ln_age * nt
    let age_smoke := if inp.smoker then ln_age else 0
    let is_black := inp.race = Race.black
    let is_male := inp.sex = Sex.male
    let gd : String × ℝ × ℝ × ℝ :=
      if is_black ∧ ¬is_male then
        ("black_female", 0.95334, 86.6081,
          17.1141 * ln_age
          + 0.9396 * ln_tc
          - 18.9196 * ln_hdl
          + 4.4748 * age_hdl
          + 29.2907 * tr
          - 6.4321 * age_tr_sbp
          + 27.8197 * nt
          - 6.0873 * age_nt_sbp
          + 0.6908 * (if inp.smoker then (1 : ℝ) else 0)
          + 0.8738 * (if inp.diabetes then (1 : ℝ) else 0))
      else if ¬is_black ∧ ¬is_male then
        ("white_female", 0.96652, -29.1817,
          -29.799 * ln_age
          + 4.884 * ln_age ^ 2
          + 13.54 * ln_tc
          - 3.114 * age_tc
          - 13.578 * ln_hdl
          + 3.149 * age_hdl
          + 2.019 * tr
          + 1.957 * nt
          + 7.574 * (if inp.smoker then (1 : ℝ) else 0)
          - 1.665 * age_smoke
          + 0.661 * (if inp.diabetes then (1 : ℝ) else 0))
      else if is_black ∧ is_male then
        ("black_male", 0.89536, 19.5425,
          2.469 * ln_age
          + 0.302 * ln_tc
          - 0.307 * ln_hdl
          + 1.916 * tr
          + 1.809 * nt
          + 0.549 * (if inp.smoker then (1 : ℝ) else 0)
          + 0.645 * (if inp.diabetes then (1 : ℝ) else 0))
      else
        ("white_male", 0.91436, 61.1816,
          12.344 * ln_age
          + 11.853 * ln_tc
          - 2.664 * age_tc
          - 7.99 * ln_hdl
          + 1.769 * age_hdl
          + 1.797 * tr
          + 1.764 * nt
          + 7.837 * (if inp.smoker then (1 : ℝ) else 0)
          - 1.795 * age_smoke
          + 0.658 * (if inp.diabetes then (1 : ℝ) else 0))
    let risk : ℝ := 1 - gd.2.1 ^ Real.exp (gd.2.2.2 - gd.2.2.1)
    pure { risk_pct_10y := some (_round1 (100 * risk)),
           details := some { group := gd.1, linear_predictor := gd.2.2.2,
                             s0 := gd.2.1, mean := gd.2.2.1 } }

/-! ## A concrete white-male input whose linear predictor equals the mean

With all numeric fields chosen as exponentials of rationals, every log in
the model evaluates exactly.  The SBP exponent is solved so that the
non-smoker, non-diabetic linear predictor equals the white-male mean
`61.1816`, making the risk exactly `1 - 0.91436 = 8.564%`, rounded `8.6`. -/

noncomputable def wmS : ℝ :=
  (61.1816 - (12.344 * 4.368 + 11.853 * 5 - 2.664 * (4.368 * 5)
    - 7.99 * 4 + 1.769 * (4.368 * 4))) / 1.764

noncomputable def wmBase : RiskInputs :=
  { age_years := Real.exp 4.368
    sex := Sex.male
    race := Race.white_or_other
    total_chol_mgdl := Real.exp 5
    hdl_mgdl := Real.exp 4
    sbp_mmhg := Real.exp wmS
    on_bp_meds := false
    smoker := false
    diabetes := false }


/-! ## Rounding lemmas -/

lemma roundHalfEven_ge_floor (x : ℝ) : ⌊x⌋ ≤ roundHalfEven x := by
  unfold roundHalfEven
  split
  · split <;> omega
  · rw [round_eq]
    exact Int.floor_le_floor (by linarith)

lemma roundHalfEven_le_floor_add_one (x : ℝ) : roundHalfEven x ≤ ⌊x⌋ + 1 := by
  unfold roundHalfEven
  split
  · split <;> omega
  · rw [round_eq]
    have h : ⌊x + 1 / 2⌋ ≤ ⌊x + 1⌋ := Int.floor_le_floor (by linarith)
    have h2 : ⌊x + (1 : ℝ)⌋ = ⌊x⌋ + 1 := by
      exact_mod_cast Int.floor_add_int x 1
    omega

lemma le_roundHalfEven (x : ℝ) : x - 1 / 2 ≤ (roundHalfEven x : ℝ) := by
  unfold roundHalfEven
  by_cases hx : Int.fract x = 1 / 2
  · rw [if_pos hx]
    have hxf := Int.floor_add_fract x
    rw [hx] at hxf
    split <;> push_cast <;> linarith
  · rw [if_neg hx]
    have h := abs_le.mp (abs_sub_round x)
    linarith [h.2]

lemma roundHalfEven_le (x : ℝ) : (roundHalfEven x : ℝ) ≤ x + 1 / 2 := by
  unfold roundHalfEven
  by_cases hx : Int.fract x = 1 / 2
  · rw [if_pos hx]
    have hxf := Int.floor_add_fract x
    rw [hx] at hxf
    split <;> push_cast <;> linarith
  · rw [if_neg hx]
    have h := abs_le.mp (abs_sub_round x)
    linarith [h.1]

lemma roundHalfEven_mono {x y : ℝ} (h : x ≤ y) :
    roundHalfEven x ≤ roundHalfEven y := by
  rcases lt_or_eq_of_le (Int.floor_le_floor h) with hf | hf
  · have h1 := roundHalfEven_le_floor_add_one x
    have h2 := roundHalfEven_ge_floor y
    omega
  · have hfr : (⌊x⌋ : ℝ) = (⌊y⌋ : ℝ) := by exact_mod_cast hf
    have hx' := Int.floor_add_fract x
    have hy' := Int.floor_add_fract y
    have hle : Int.fract x ≤ Int.fract y := by linarith
    unfold roundHalfEven
    by_cases hx : Int.fract x = 1 / 2 <;> by_cases hy : Int.fract y = 1 / 2
    · have hxy : x = y := by rw [hx] at hx'; rw [hy] at hy'; linarith
      subst hxy
      exact le_rfl
    · -- x is a tie, y is not: fract y > 1/2, so round y ≥ ⌊y⌋ + 1
      have hfy : (1 : ℝ) / 2 < Int.fract y := by
        rw [hx] at hle
        exact lt_of_le_of_ne hle (Ne.symm hy)
      have h2 : ⌊y⌋ + 1 ≤ round y := by
        rw [round_eq]
        apply Int.le_floor.mpr
        push_cast
        linarith
      rw [if_pos hx, if_neg hy]
      split <;> omega
    · -- y is a tie, x is not: fract x < 1/2, so round x ≤ ⌊x⌋
      have hfx : Int.fract x < 1 / 2 := by
        rw [hy] at hle
        exact lt_of_le_of_ne hle hx
      have h2 : round x ≤ ⌊x⌋ := by
        rw [round_eq]
        have : ⌊x + 1 / 2⌋ < ⌊x⌋ + 1 := by
          apply Int.floor_lt.mpr
          push_cast
          linarith
        omega
      rw [if_neg hx, if_pos hy]
      split <;> omega
    · rw [if_neg hx, if_neg hy, round_eq, round_eq]
      exact Int.floor_le_floor (by linarith)

lemma _round1_mono {x y : ℝ} (h : x ≤ y) : _round1 x ≤ _round1 y := by
  unfold _round1
  have := roundHalfEven_mono (show x * 10 ≤ y * 10 by linarith)
  have hc : (roundHalfEven (x * 10) : ℝ) ≤ (roundHalfEven (y * 10) : ℝ) :=
    Int.cast_le.mpr this
  linarith

lemma _round1_le (x : ℝ) : _round1 x ≤ x + 1 / 20 := by
  unfold _round1
  have := roundHalfEven_le (x * 10)
  linarith

lemma le_round1 (x : ℝ) : x - 1 / 20 ≤ _round1 x := by
  unfold _round1
  have := le_roundHalfEven (x * 10)
  linarith

/-! ## Shape of the result for in-range ages -/

lemma compute_in_range (inp : RiskInputs)
    (h1 : 40 ≤ inp.age_years) (h2 : inp.age_years ≤ 79) :
    compute_10y_ascvd_pce2013 inp =
      { risk_pct_10y := some (_round1 (100 * (1 -
          groupS0 inp.race inp.sex ^
            Real.exp (lpOf inp - groupMean inp.race inp.sex)))),
        details := some { group := groupLabel inp.race inp.sex,
                          linear_predictor := lpOf inp,
                          s0 := groupS0 inp.race inp.sex,
                          mean := groupMean inp.race inp.sex } } := by
  have hgate : ¬(inp.age_years < 40 ∨ inp.age_years > 79) := by
    push_neg
    exact ⟨by linarith, by linarith⟩
  obtain ⟨age, sx, rc, tc, hdl, sbp, meds, smoke, diab⟩ := inp
  unfold compute_10y_ascvd_pce2013
  rw [if_neg hgate]
  cases rc <;> cases sx <;>
    simp [lpOf, groupLabel, groupS0, groupMean]

/-! ## Certified bounds on `exp` and `log` at the constants we need -/

lemma exp_le_sum_add {x : ℝ} (hx : |x| ≤ 1) {n : ℕ} (hn : 0 < n) :
    Real.exp x ≤ (∑ m ∈ Finset.range n, x ^ m / m.factorial)
      + |x| ^ n * (n.succ / (n.factorial * n)) := by
  have h := (abs_le.mp (Real.exp_bound hx hn)).2
  linarith

lemma sum_sub_le_exp {x : ℝ} (hx : |x| ≤ 1) {n : ℕ} (hn : 0 < n) :
    (∑ m ∈ Finset.range n, x ^ m / m.factorial)
      - |x| ^ n * (n.succ / (n.factorial * n)) ≤ Real.exp x := by
  have h := (abs_le.mp (Real.exp_bound hx hn)).1
  linarith

lemma exp_0546_ub : Real.exp 0.546 ≤ 1.7264 := by
  have habs : |(0.546 : ℝ)| = 0.546 := abs_of_nonneg (by norm_num)
  have h := exp_le_sum_add (x := 0.546) (by rw [habs]; norm_num) (n := 6) (by norm_num)
  rw [habs] at h
  refine h.trans ?_
  norm_num [Finset.sum_range_succ, Nat.factorial]

lemma exp_0546_lb : 1.71 ≤ Real.exp 0.546 := by
  have habs : |(0.546 : ℝ)| = 0.546 := abs_of_nonneg (by norm_num)
  have h := sum_sub_le_exp (x := 0.546) (by rw [habs]; norm_num) (n := 4) (by norm_num)
  rw [habs] at h
  refine le_trans ?_ h
  norm_num [Finset.sum_range_succ, Nat.factorial]

lemma exp_4368_eq : Real.exp 4.368 = Real.exp 0.546 ^ (8 : ℕ) := by
  rw [show (4.368 : ℝ) = ((8 : ℕ) : ℝ) * 0.546 by norm_num, Real.exp_nat_mul]

lemma exp_4368_ub : Real.exp 4.368 ≤ 79 := by
  rw [exp_4368_eq]
  calc Real.exp 0.546 ^ (8 : ℕ) ≤ 1.7264 ^ (8 : ℕ) :=
        pow_le_pow_left₀ (Real.exp_pos _).le exp_0546_ub 8
    _ ≤ 79 := by norm_num

lemma exp_4368_lb : 40 ≤ Real.exp 4.368 := by
  rw [exp_4368_eq]
  calc (40 : ℝ) ≤ 1.71 ^ (8 : ℕ) := by norm_num
    _ ≤ Real.exp 0.546 ^ (8 : ℕ) := pow_le_pow_left₀ (by norm_num) exp_0546_lb 8

lemma exp_neg08954_ub : Real.exp (-0.08954) ≤ 0.91436 := by
  have habs : |(-0.08954 : ℝ)| = 0.08954 := by
    rw [abs_of_nonpos (by norm_num)]; norm_num
  have h := exp_le_sum_add (x := -0.08954) (by rw [habs]; norm_num) (n := 5) (by norm_num)
  rw [habs] at h
  refine h.trans ?_
  norm_num [Finset.sum_range_succ, Nat.factorial]

lemma exp_neg08952_lb : 0.91436 ≤ Real.exp (-0.08952) := by
  have habs : |(-0.08952 : ℝ)| = 0.08952 := by
    rw [abs_of_nonpos (by norm_num)]; norm_num
  have h := sum_sub_le_exp (x := -0.08952) (by rw [habs]; norm_num) (n := 5) (by norm_num)
  refine le_trans ?_ h
  rw [habs]
  norm_num [Finset.sum_range_succ, Nat.factorial]

/-- Bounds on `log 0.91436`, the log of the white-male baseline survival. -/
lemma log_s0wm_lb : -0.08954 ≤ Real.log 0.91436 := by
  rw [Real.le_log_iff_exp_le (by norm_num : (0 : ℝ) < 0.91436)]
  exact exp_neg08954_ub

lemma log_s0wm_ub : Real.log 0.91436 ≤ -0.08952 := by
  rw [Real.log_le_iff_le_exp (by norm_num : (0 : ℝ) < 0.91436)]
  exact exp_neg08952_lb

lemma exp_neg00356_ub : Real.exp (-0.00356) ≤ 0.99645 := by
  have habs : |(-0.00356 : ℝ)| = 0.00356 := by
    rw [abs_of_nonpos (by norm_num)]; norm_num
  have h := exp_le_sum_add (x := -0.00356) (by rw [habs]; norm_num) (n := 2) (by norm_num)
  rw [habs] at h
  refine h.trans ?_
  norm_num [Finset.sum_range_succ, Nat.factorial]

lemma exp_neg089223_lb : 0.91463 ≤ Real.exp (-0.089223) := by
  have habs : |(-0.089223 : ℝ)| = 0.089223 := by
    rw [abs_of_nonpos (by norm_num)]; norm_num
  have h := sum_sub_le_exp (x := -0.089223) (by rw [habs]; norm_num) (n := 4) (by norm_num)
  refine le_trans ?_ h
  rw [habs]
  norm_num [Finset.sum_range_succ, Nat.factorial]

lemma exp_0658_lb : 1.9 ≤ Real.exp 0.658 := by
  have habs : |(0.658 : ℝ)| = 0.658 := abs_of_nonneg (by norm_num)
  have h := sum_sub_le_exp (x := 0.658) (by rw [habs]; norm_num) (n := 4) (by norm_num)
  refine le_trans ?_ h
  rw [habs]
  norm_num [Finset.sum_range_succ, Nat.factorial]

lemma exp_neg0170088_ub : Real.exp (-0.170088) ≤ 0.8455 := by
  have habs : |(-0.170088 : ℝ)| = 0.170088 := by
    rw [abs_of_nonpos (by norm_num)]; norm_num
  have h := exp_le_sum_add (x := -0.170088) (by rw [habs]; norm_num) (n := 3) (by norm_num)
  rw [habs] at h
  refine h.trans ?_
  norm_num [Finset.sum_range_succ, Nat.factorial]

lemma exp_45_ge_79 : (79 : ℝ) ≤ Real.exp 4.5 := by
  have habs : |(0.5625 : ℝ)| = 0.5625 := abs_of_nonneg (by norm_num)
  have h := sum_sub_le_exp (x := 0.5625) (by rw [habs]; norm_num) (n := 5) (by norm_num)
  rw [habs] at h
  have hlb : (1.7539 : ℝ) ≤ Real.exp 0.5625 := by
    refine le_trans ?_ h
    norm_num [Finset.sum_range_succ, Nat.factorial]
  rw [show (4.5 : ℝ) = ((8 : ℕ) : ℝ) * 0.5625 by norm_num, Real.exp_nat_mul]
  calc (79 : ℝ) ≤ 1.7539 ^ (8 : ℕ) := by norm_num
    _ ≤ Real.exp 0.5625 ^ (8 : ℕ) := pow_le_pow_left₀ (by norm_num) hlb 8

lemma exp_4366_ge_78 : (78 : ℝ) ≤ Real.exp 4.366 := by
  have habs : |(0.54575 : ℝ)| = 0.54575 := abs_of_nonneg (by norm_num)
  have h := sum_sub_le_exp (x := 0.54575) (by rw [habs]; norm_num) (n := 6) (by norm_num)
  rw [habs] at h
  have hlb : (1.72581 : ℝ) ≤ Real.exp 0.54575 := by
    refine le_trans ?_ h
    norm_num [Finset.sum_range_succ, Nat.factorial]
  rw [show (4.366 : ℝ) = ((8 : ℕ) : ℝ) * 0.54575 by norm_num, Real.exp_nat_mul]
  calc (78 : ℝ) ≤ 1.72581 ^ (8 : ℕ) := by norm_num
    _ ≤ Real.exp 0.54575 ^ (8 : ℕ) := pow_le_pow_left₀ (by norm_num) hlb 8

/-- Any in-range age (and, with `≤ 78`, a tighter bound) has a small log. -/
lemma log_le_45 {a : ℝ} (h0 : 0 < a) (h : a ≤ 79) : Real.log a ≤ 4.5 := by
  rw [Real.log_le_iff_le_exp h0]
  exact h.trans exp_45_ge_79

lemma log_le_4366 {a : ℝ} (h0 : 0 < a) (h : a ≤ 78) : Real.log a ≤ 4.366 := by
  rw [Real.log_le_iff_le_exp h0]
  exact h.trans exp_4366_ge_78

lemma lp_wmBase : lpOf wmBase = 61.1816 := by
  simp only [lpOf, wmBase, tr_ln_sbp, nt_ln_sbp, Real.log_exp]
  norm_num [wmS]

lemma lp_wmSmoker : lpOf { wmBase with smoker := true } = 61.1816 - 0.00356 := by
  simp only [lpOf, wmBase, tr_ln_sbp, nt_ln_sbp, Real.log_exp]
  norm_num [wmS]

lemma floor_8564 : ⌊(85.64 : ℝ)⌋ = 85 := by
  rw [Int.floor_eq_iff]
  norm_num

lemma round1_8564 : _round1 8.564 = 8.6 := by
  have hfr : Int.fract (85.64 : ℝ) = 0.64 := by
    have h := (Int.self_sub_floor (85.64 : ℝ)).symm
    rw [floor_8564] at h
    rw [h]
    push_cast
    norm_num
  have hfl : ⌊(86.14 : ℝ)⌋ = 86 := by
    rw [Int.floor_eq_iff]
    norm_num
  unfold _round1 roundHalfEven
  rw [show (8.564 : ℝ) * 10 = 85.64 by norm_num, if_neg (by rw [hfr]; norm_num),
    round_eq, show (85.64 : ℝ) + 1 / 2 = 86.14 by norm_num, hfl]
  norm_num

lemma wm_base_pct : risk_or_none wmBase = some 8.6 := by
  unfold risk_or_none
  rw [compute_in_range wmBase exp_4368_lb exp_4368_ub]
  have hrace : wmBase.race = Race.white_or_other := rfl
  have hsex : wmBase.sex = Sex.male := rfl
  rw [hrace, hsex]
  simp only [groupS0, groupMean, lp_wmBase]
  rw [show (61.1816 : ℝ) - 61.1816 = 0 by norm_num, Real.exp_zero, Real.rpow_one,
    show (100 : ℝ) * (1 - 0.91436) = 8.564 by norm_num, round1_8564]

lemma wm_smoker_pct_lt : ∃ r1, risk_or_none { wmBase with smoker := true } = some r1 ∧ r1 < 8.6 := by
  unfold risk_or_none
  rw [compute_in_range { wmBase with smoker := true } exp_4368_lb exp_4368_ub]
  have hrace : ({ wmBase with smoker := true } : RiskInputs).race = Race.white_or_other := rfl
  have hsex : ({ wmBase with smoker := true } : RiskInputs).sex = Sex.male := rfl
  rw [hrace, hsex]
  simp only [groupS0, groupMean, lp_wmSmoker]
  refine ⟨_, rfl, ?_⟩
  have hexp : (61.1816 : ℝ) - 0.00356 - 61.1816 = -0.00356 := by norm_num
  rw [hexp]
  -- 0.91436 ^ exp(-0.00356) ≥ 0.91463, hence the percentage is below 8.6
  have hrp : (0.91463 : ℝ) ≤ (0.91436 : ℝ) ^ Real.exp (-0.00356) := by
    rw [Real.rpow_def_of_pos (by norm_num : (0 : ℝ) < 0.91436)]
    have h1 : -Real.log 0.91436 ≤ 0.08954 := by linarith [log_s0wm_lb]
    have h1' : 0 ≤ -Real.log 0.91436 := by linarith [log_s0wm_ub]
    have h2 := exp_neg00356_ub
    have h3 := (Real.exp_pos (-0.00356 : ℝ)).le
    have h4 : -Real.log 0.91436 * Real.exp (-0.00356) ≤ 0.08954 * 0.99645 :=
      mul_le_mul h1 h2 h3 (by norm_num)
    have hy : -0.089223 ≤ Real.log 0.91436 * Real.exp (-0.00356) := by nlinarith
    calc (0.91463 : ℝ) ≤ Real.exp (-0.089223) := exp_neg089223_lb
      _ ≤ Real.exp (Real.log 0.91436 * Real.exp (-0.00356)) := Real.exp_le_exp.mpr hy
  have hv : (100 : ℝ) * (1 - (0.91436 : ℝ) ^ Real.exp (-0.00356)) ≤ 8.537 := by
    nlinarith
  calc _round1 (100 * (1 - (0.91436 : ℝ) ^ Real.exp (-0.00356)))
      ≤ 100 * (1 - (0.91436 : ℝ) ^ Real.exp (-0.00356)) + 1 / 20 := _round1_le _
    _ < 8.6 := by linarith

/-! ## Monotonicity of the risk percentage in the linear predictor -/

lemma groupS0_pos (rc : Race) (sx : Sex) : 0 < groupS0 rc sx := by
  cases rc <;> cases sx <;> norm_num [groupS0]

lemma groupS0_lt_one (rc : Race) (sx : Sex) : groupS0 rc sx < 1 := by
  cases rc <;> cases sx <;> norm_num [groupS0]

lemma pct_mono_in_lp {s0 m l1 l2 : ℝ} (h0 : 0 < s0) (h1 : s0 ≤ 1) (h : l1 ≤ l2) :
    _round1 (100 * (1 - s0 ^ Real.exp (l1 - m)))
      ≤ _round1 (100 * (1 - s0 ^ Real.exp (l2 - m))) := by
  apply _round1_mono
  have he : Real.exp (l1 - m) ≤ Real.exp (l2 - m) := Real.exp_le_exp.mpr (by linarith)
  have h2 := Real.rpow_le_rpow_of_exponent_ge h0 h1 he
  linarith

/-- Raising SBP (medication status and all other fields fixed) never lowers
the linear predictor, for any group and any in-range age. -/
lemma lp_update_sbp_mono (age : ℝ) (sx : Sex) (rc : Race) (tc hdl : ℝ)
    (meds smoke diab : Bool) (h0 : 0 < age) (h79 : age ≤ 79)
    {s1 s2 : ℝ} (hs1 : 0 < s1) (h12 : s1 ≤ s2) :
    lpOf ⟨age, sx, rc, tc, hdl, s1, meds, smoke, diab⟩
      ≤ lpOf ⟨age, sx, rc, tc, hdl, s2, meds, smoke, diab⟩ := by
  have hla : Real.log age ≤ 4.5 := log_le_45 h0 h79
  have hlog : Real.log s1 ≤ Real.log s2 := Real.log_le_log hs1 h12
  have hd : 0 ≤ Real.log s2 - Real.log s1 := by linarith
  have hK1 : 0 ≤ (29.2907 - 6.4321 * Real.log age) * (Real.log s2 - Real.log s1) :=
    mul_nonneg (by linarith) hd
  have hK2 : 0 ≤ (27.8197 - 6.0873 * Real.log age) * (Real.log s2 - Real.log s1) :=
    mul_nonneg (by linarith) hd
  cases rc <;> cases sx <;> cases meds <;>
    simp only [lpOf, tr_ln_sbp, nt_ln_sbp] <;>
    simp <;>
    nlinarith [hK1, hK2, hd, hlog]

/-- Turning the smoker flag on (all other fields fixed) never lowers the
linear predictor as long as the age is at most 78. -/
lemma lp_update_smoker_mono (age : ℝ) (sx : Sex) (rc : Race) (tc hdl sbp : ℝ)
    (meds diab : Bool) (h0 : 0 < age) (h78 : age ≤ 78) :
    lpOf ⟨age, sx, rc, tc, hdl, sbp, meds, false, diab⟩
      ≤ lpOf ⟨age, sx, rc, tc, hdl, sbp, meds, true, diab⟩ := by
  have hla : Real.log age ≤ 4.366 := log_le_4366 h0 h78
  cases rc <;> cases sx <;>
    simp only [lpOf, tr_ln_sbp, nt_ln_sbp] <;>
    simp <;>
    nlinarith [hla]

/-! ## The diabetes-flipped white-male hybrid -/

lemma lp_wmDiab : lpOf { wmBase with diabetes := true } = 61.1816 + 0.658 := by
  simp only [lpOf, wmBase, tr_ln_sbp, nt_ln_sbp, Real.log_exp]
  norm_num [wmS]

lemma wm_diab_pct_gt :
    ∃ rD, risk_or_none { wmBase with diabetes := true } = some rD ∧ 8.6 < rD := by
  unfold risk_or_none
  rw [compute_in_range { wmBase with diabetes := true } exp_4368_lb exp_4368_ub]
  have hrace : ({ wmBase with diabetes := true } : RiskInputs).race = Race.white_or_other := rfl
  have hsex : ({ wmBase with diabetes := true } : RiskInputs).sex = Sex.male := rfl
  rw [hrace, hsex]
  simp only [groupS0, groupMean, lp_wmDiab]
  refine ⟨_, rfl, ?_⟩
  have hexp : (61.1816 : ℝ) + 0.658 - 61.1816 = 0.658 := by norm_num
  rw [hexp]
  -- 0.91436 ^ exp(0.658) ≤ 0.8455, so the percentage exceeds 15.4 > 8.6
  have hrp : (0.91436 : ℝ) ^ Real.exp 0.658 ≤ 0.8455 := by
    have h19 : (0.91436 : ℝ) ^ Real.exp 0.658 ≤ (0.91436 : ℝ) ^ (1.9 : ℝ) :=
      Real.rpow_le_rpow_of_exponent_ge (by norm_num) (by norm_num) exp_0658_lb
    have h2 : (0.91436 : ℝ) ^ (1.9 : ℝ) ≤ 0.8455 := by
      rw [Real.rpow_def_of_pos (by norm_num : (0 : ℝ) < 0.91436)]
      have h3 : Real.log 0.91436 * 1.9 ≤ -0.170088 := by nlinarith [log_s0wm_ub]
      calc Real.exp (Real.log 0.91436 * 1.9) ≤ Real.exp (-0.170088) :=
            Real.exp_le_exp.mpr h3
        _ ≤ 0.8455 := exp_neg0170088_ub
    linarith
  have hv : (15.45 : ℝ) ≤ 100 * (1 - (0.91436 : ℝ) ^ Real.exp 0.658) := by nlinarith
  calc (8.6 : ℝ) < 100 * (1 - (0.91436 : ℝ) ^ Real.exp 0.658) - 1 / 20 := by linarith
    _ ≤ _round1 (100 * (1 - (0.91436 : ℝ) ^ Real.exp 0.658)) := le_round1 _

/-! ## The checked evaluation succeeds on positive inputs -/

lemma computeE_ok (inp : RiskInputs)
    (h40 : 40 ≤ inp.age_years) (h79 : inp.age_years ≤ 79)
    (htc : 0 < inp.total_chol_mgdl) (hhdl : 0 < inp.hdl_mgdl)
    (hsbp : 0 < inp.sbp_mmhg) :
    computeE inp = Except.ok (compute_10y_ascvd_pce2013 inp) := by
  have hgate : ¬(inp.age_years < 40 ∨ inp.age_years > 79) := by
    push_neg
    exact ⟨by linarith, by linarith⟩
  have hage : (0 : ℝ) < inp.age_years := by linarith
  cases hmeds : inp.on_bp_meds
  · have htr : tr_ln_sbp inp = 0 := by
      unfold tr_ln_sbp
      rw [hmeds]
      simp
    have hnt : nt_ln_sbp inp = Real.log inp.sbp_mmhg := by
      unfold nt_ln_sbp
      rw [hmeds]
      simp
    unfold computeE compute_10y_ascvd_pce2013 logE
    rw [if_neg hgate, if_neg hgate, if_pos hage, if_pos htc, if_pos hhdl, hmeds,
      htr, hnt, if_pos hsbp]
    rfl
  · have htr : tr_ln_sbp inp = Real.log inp.sbp_mmhg := by
      unfold tr_ln_sbp
      rw [hmeds]
      simp
    have hnt : nt_ln_sbp inp = 0 := by
      unfold nt_ln_sbp
      rw [hmeds]
      simp
    unfold computeE compute_10y_ascvd_pce2013 logE
    rw [if_neg hgate, if_neg hgate, if_pos hage, if_pos htc, if_pos hhdl, hmeds,
      htr, hnt, if_pos hsbp]
    rfl

/-! ## The stable descending sort is sorted -/

lemma mem_insertDesc {x y : String × ℝ} {l : List (String × ℝ)} :
    y ∈ insertDesc x l ↔ y = x ∨ y ∈ l := by
  induction l with
  | nil => simp [insertDesc]
  | cons z zs ih =>
      unfold insertDesc
      split
      · simp [List.mem_cons]
      · simp only [List.mem_cons, ih]
        tauto

lemma insertDesc_sorted {x : String × ℝ} {l : List (String × ℝ)}
    (h : l.Sorted fun a b => |b.2| ≤ |a.2|) :
    (insertDesc x l).Sorted fun a b => |b.2| ≤ |a.2| := by
  induction l with
  | nil => simp [insertDesc]
  | cons y ys ih =>
      rw [List.sorted_cons] at h
      obtain ⟨hy, hys⟩ := h
      unfold insertDesc
      split
      · rename_i hcond
        rw [List.sorted_cons]
        refine ⟨?_, ?_⟩
        · intro b hb
          rcases List.mem_cons.mp hb with rfl | hb
          · exact hcond
          · exact le_trans (hy b hb) hcond
        · rw [List.sorted_cons]
          exact ⟨hy, hys⟩
      · rename_i hcond
        push_neg at hcond
        rw [List.sorted_cons]
        refine ⟨?_, ih hys⟩
        intro b hb
        rcases mem_insertDesc.mp hb with rfl | hb
        · exact hcond.le
        · exact hy b hb

lemma sortDesc_sorted (l : List (String × ℝ)) :
    (sortDesc l).Sorted fun a b => |b.2| ≤ |a.2| := by
  induction l with
  | nil => simp [sortDesc]
  | cons x xs ih => exact insertDesc_sorted ih

lemma sortDesc_pair (a b : String × ℝ) :
    sortDesc [a, b] = if |b.2| ≤ |a.2| then [a, b] else [b, a] := by
  simp [sortDesc, insertDesc]

/-! ## Timeline helpers -/

lemma compute_timeline_get (base scen : RiskInputs) (months m : ℕ) (hm : m ≤ months) :
    (compute_timeline base scen months).get? m =
      some (m, risk_or_none (timelineStep base scen months m)) := by
  unfold compute_timeline
  rw [List.get?_eq_getElem?, List.getElem?_map, List.getElem?_range (by omega)]
  rfl

lemma ite_ge_half (t : ℝ) (a b : Bool) :
    (if t ≥ 0.5 then a else b) = if t < 0.5 then b else a := by
  by_cases h : t < 0.5
  · rw [if_neg (by linarith), if_pos h]
  · rw [if_pos (not_lt.mp h), if_neg h]

lemma timelineStep_claim_shape (base scen : RiskInputs) (months m : ℕ) (hm : 1 ≤ months) :
    timelineStep base scen months m =
      { age_years := base.age_years
        sex := base.sex
        race := base.race
        total_chol_mgdl := _lerp base.total_chol_mgdl scen.total_chol_mgdl ((m : ℝ) / (months : ℝ))
        hdl_mgdl := _lerp base.hdl_mgdl scen.hdl_mgdl ((m : ℝ) / (months : ℝ))
        sbp_mmhg := _lerp base.sbp_mmhg scen.sbp_mmhg ((m : ℝ) / (months : ℝ))
        on_bp_meds := if (m : ℝ) / (months : ℝ) < 0.5 then base.on_bp_meds else scen.on_bp_meds
        smoker := if (m : ℝ) / (months : ℝ) < 0.5 then base.smoker else scen.smoker
        diabetes := scen.diabetes } := by
  have hpos : 0 < months := by omega
  simp only [timelineStep, if_pos hpos, ite_ge_half]

/-! ## Claim theorems -/

/-- C1: For every input with `age_years` in `[40, 79]` and strictly positive
numeric fields, `compute_10y_ascvd_pce2013` returns a risk percentage equal
to `100 * (1 - S0 ^ exp (lp - mean))` rounded to one decimal place
(round-half-to-even), where `S0`, `mean` and the linear predictor `lp` use
the selected group's literal coefficients, and the diagnostic bundle
contains exactly that group label, `lp`, `S0` and `mean`. -/
theorem pce_formula_correct (inp : RiskInputs)
    (h40 : 40 ≤ inp.age_years) (h79 : inp.age_years ≤ 79)
    (htc : 0 < inp.total_chol_mgdl) (hhdl : 0 < inp.hdl_mgdl)
    (hsbp : 0 < inp.sbp_mmhg) :
    compute_10y_ascvd_pce2013 inp =
      { risk_pct_10y := some (_round1 (100 * (1 - groupS0 inp.race inp.sex ^
          Real.exp (lpOf inp - groupMean inp.race inp.sex)))),
        details := some { group := groupLabel inp.race inp.sex,
                          linear_predictor := lpOf inp,
                          s0 := groupS0 inp.race inp.sex,
                          mean := groupMean inp.race inp.sex } } :=
  compute_in_range inp h40 h79

/-- Witness for C1 at the typical preset. -/
theorem pce_formula_correct_witness :
    ((40 : ℝ) ≤ typicalInputs.age_years ∧ typicalInputs.age_years ≤ 79 ∧
      0 < typicalInputs.total_chol_mgdl ∧ 0 < typicalInputs.hdl_mgdl ∧
      0 < typicalInputs.sbp_mmhg) ∧
    compute_10y_ascvd_pce2013 typicalInputs =
      { risk_pct_10y := some (_round1 (100 * (1 -
          groupS0 typicalInputs.race typicalInputs.sex ^
            Real.exp (lpOf typicalInputs -
              groupMean typicalInputs.race typicalInputs.sex)))),
        details := some { group := groupLabel typicalInputs.race typicalInputs.sex,
                          linear_predictor := lpOf typicalInputs,
                          s0 := groupS0 typicalInputs.race typicalInputs.sex,
                          mean := groupMean typicalInputs.race typicalInputs.sex } } :=
  ⟨⟨by norm_num [typicalInputs], by norm_num [typicalInputs], by norm_num [typicalInputs],
    by norm_num [typicalInputs], by norm_num [typicalInputs]⟩,
    pce_formula_correct typicalInputs (by norm_num [typicalInputs])
      (by norm_num [typicalInputs]) (by norm_num [typicalInputs])
      (by norm_num [typicalInputs]) (by norm_num [typicalInputs])⟩

/-- C2: The result has no risk percentage and no diagnostics iff
`age_years < 40` or `age_years > 79`, regardless of all other fields; in
particular ages `40` and `79` produce a risk percentage while `39.9` and
`79.1` do not. -/
theorem age_gate_iff :
    (∀ inp : RiskInputs,
      ((compute_10y_ascvd_pce2013 inp).risk_pct_10y = none ∧
        (compute_10y_ascvd_pce2013 inp).details = none) ↔
        (inp.age_years < 40 ∨ inp.age_years > 79)) ∧
    (compute_10y_ascvd_pce2013 { typicalInputs with age_years := 40 }).risk_pct_10y ≠ none ∧
    (compute_10y_ascvd_pce2013 { typicalInputs with age_years := 79 }).risk_pct_10y ≠ none ∧
    (compute_10y_ascvd_pce2013 { typicalInputs with age_years := 39.9 }).risk_pct_10y = none ∧
    (compute_10y_ascvd_pce2013 { typicalInputs with age_years := 79.1 }).risk_pct_10y = none := by
  refine ⟨?_, ?_, ?_, ?_, ?_⟩
  · intro inp
    by_cases hg : inp.age_years < 40 ∨ inp.age_years > 79
    · unfold compute_10y_ascvd_pce2013
      rw [if_pos hg]
      simpa using hg
    · push_neg at hg
      rw [compute_in_range inp hg.1 hg.2]
      constructor
      · rintro ⟨hnone, -⟩
        exact absurd hnone (by simp)
      · rintro (h | h)
        · linarith [hg.1]
        · linarith [hg.2]
  · rw [compute_in_range _ (by show (40 : ℝ) ≤ 40; norm_num)
      (by show (40 : ℝ) ≤ 79; norm_num)]
    simp
  · rw [compute_in_range _ (by show (40 : ℝ) ≤ 79; norm_num)
      (by show (79 : ℝ) ≤ 79; norm_num)]
    simp
  · unfold compute_10y_ascvd_pce2013
    rw [if_pos (Or.inl (by show (39.9 : ℝ) < 40; norm_num))]
  · unfold compute_10y_ascvd_pce2013
    rw [if_pos (Or.inr (by show (79.1 : ℝ) > 79; norm_num))]

/-- C3: Group selection is a pure function of `(race, sex)` that partitions
the four combinations disjointly with the documented labels; for every
in-range-age input the diagnostic group label, `S0` and `mean` are those of
the selected group; and each of the four branches is reachable. -/
theorem group_dispatch_pure (inp : RiskInputs)
    (h40 : 40 ≤ inp.age_years) (h79 : inp.age_years ≤ 79) :
    (∃ d, (compute_10y_ascvd_pce2013 inp).details = some d ∧
      d.group = groupLabel inp.race inp.sex ∧
      d.s0 = groupS0 inp.race inp.sex ∧
      d.mean = groupMean inp.race inp.sex) ∧
    (∃ d, (compute_10y_ascvd_pce2013
        { typicalInputs with race := Race.black, sex := Sex.female }).details =
          some d ∧ d.group = "black_female") ∧
    (∃ d, (compute_10y_ascvd_pce2013
        { typicalInputs with race := Race.white_or_other, sex := Sex.female }).details =
          some d ∧ d.group = "white_female") ∧
    (∃ d, (compute_10y_ascvd_pce2013
        { typicalInputs with race := Race.black, sex := Sex.male }).details =
          some d ∧ d.group = "black_male") ∧
    (∃ d, (compute_10y_ascvd_pce2013
        { typicalInputs with race := Race.white_or_other, sex := Sex.male }).details =
          some d ∧ d.group = "white_male") := by
  refine ⟨?_, ?_, ?_, ?_, ?_⟩
  · rw [compute_in_range inp h40 h79]
    exact ⟨_, rfl, rfl, rfl, rfl⟩
  · rw [compute_in_range _ (by show (40 : ℝ) ≤ 55; norm_num)
      (by show (55 : ℝ) ≤ 79; norm_num)]
    exact ⟨_, rfl, rfl⟩
  · rw [compute_in_range _ (by show (40 : ℝ) ≤ 55; norm_num)
      (by show (55 : ℝ) ≤ 79; norm_num)]
    exact ⟨_, rfl, rfl⟩
  · rw [compute_in_range _ (by show (40 : ℝ) ≤ 55; norm_num)
      (by show (55 : ℝ) ≤ 79; norm_num)]
    exact ⟨_, rfl, rfl⟩
  · rw [compute_in_range _ (by show (40 : ℝ) ≤ 55; norm_num)
      (by show (55 : ℝ) ≤ 79; norm_num)]
    exact ⟨_, rfl, rfl⟩

/-- Witness for C3 at the typical preset. -/
theorem group_dispatch_pure_witness :
    ((40 : ℝ) ≤ typicalInputs.age_years ∧ typicalInputs.age_years ≤ 79) ∧
    (∃ d, (compute_10y_ascvd_pce2013 typicalInputs).details = some d ∧
      d.group = groupLabel typicalInputs.race typicalInputs.sex ∧
      d.s0 = groupS0 typicalInputs.race typicalInputs.sex ∧
      d.mean = groupMean typicalInputs.race typicalInputs.sex) :=
  ⟨⟨by norm_num [typicalInputs], by norm_num [typicalInputs]⟩,
    (group_dispatch_pure typicalInputs (by norm_num [typicalInputs])
      (by norm_num [typicalInputs])).1⟩

/-- C4: With `sbp_mmhg > 1`, the treated log-SBP term is `log sbp` on
medication and `0` otherwise, the untreated term is the reverse, exactly one
channel is non-zero per call, and flipping `on_bp_meds` (holding `sbp_mmhg`
fixed) changes which channel is non-zero. -/
theorem sbp_channel_split (inp : RiskInputs)
    (h40 : 40 ≤ inp.age_years) (h79 : inp.age_years ≤ 79)
    (hsbp : 1 < inp.sbp_mmhg) :
    (tr_ln_sbp inp = if inp.on_bp_meds then Real.log inp.sbp_mmhg else 0) ∧
    (nt_ln_sbp inp = if inp.on_bp_meds then 0 else Real.log inp.sbp_mmhg) ∧
    ((tr_ln_sbp inp ≠ 0 ∧ nt_ln_sbp inp = 0) ∨
      (tr_ln_sbp inp = 0 ∧ nt_ln_sbp inp ≠ 0)) ∧
    (tr_ln_sbp inp ≠ 0 ↔ nt_ln_sbp { inp with on_bp_meds := !inp.on_bp_meds } ≠ 0) ∧
    (nt_ln_sbp inp ≠ 0 ↔ tr_ln_sbp { inp with on_bp_meds := !inp.on_bp_meds } ≠ 0) := by
  have hlog : Real.log inp.sbp_mmhg ≠ 0 := ne_of_gt (Real.log_pos hsbp)
  cases hmeds : inp.on_bp_meds <;>
    simp [tr_ln_sbp, nt_ln_sbp, hmeds, hlog]

/-- Witness for C4 at the typical preset. -/
theorem sbp_channel_split_witness :
    ((40 : ℝ) ≤ typicalInputs.age_years ∧ typicalInputs.age_years ≤ 79 ∧
      1 < typicalInputs.sbp_mmhg) ∧
    ((tr_ln_sbp typicalInputs ≠ 0 ∧ nt_ln_sbp typicalInputs = 0) ∨
      (tr_ln_sbp typicalInputs = 0 ∧ nt_ln_sbp typicalInputs ≠ 0)) :=
  ⟨⟨by norm_num [typicalInputs], by norm_num [typicalInputs], by norm_num [typicalInputs]⟩,
    (sbp_channel_split typicalInputs (by norm_num [typicalInputs])
      (by norm_num [typicalInputs]) (by norm_num [typicalInputs])).2.2.1⟩

/-- C5: For every input with `age_years` in `[40, 79]` and strictly positive
numeric fields, the returned risk percentage lies in `[0, 100]`. -/
theorem risk_pct_in_0_100 (inp : RiskInputs)
    (h40 : 40 ≤ inp.age_years) (h79 : inp.age_years ≤ 79)
    (htc : 0 < inp.total_chol_mgdl) (hhdl : 0 < inp.hdl_mgdl)
    (hsbp : 0 < inp.sbp_mmhg) :
    ∃ r, (compute_10y_ascvd_pce2013 inp).risk_pct_10y = some r ∧
      0 ≤ r ∧ r ≤ 100 := by
  rw [compute_in_range inp h40 h79]
  refine ⟨_, rfl, ?_, ?_⟩ <;>
  · have hS0 := groupS0_pos inp.race inp.sex
    have hS1 := groupS0_lt_one inp.race inp.sex
    have h1 : 0 < groupS0 inp.race inp.sex ^
        Real.exp (lpOf inp - groupMean inp.race inp.sex) :=
      Real.rpow_pos_of_pos hS0 _
    have h2 : groupS0 inp.race inp.sex ^
        Real.exp (lpOf inp - groupMean inp.race inp.sex) < 1 :=
      Real.rpow_lt_one hS0.le hS1 (Real.exp_pos _)
    have hlo := le_roundHalfEven ((100 * (1 - groupS0 inp.race inp.sex ^
        Real.exp (lpOf inp - groupMean inp.race inp.sex))) * 10)
    have hhi := roundHalfEven_le ((100 * (1 - groupS0 inp.race inp.sex ^
        Real.exp (lpOf inp - groupMean inp.race inp.sex))) * 10)
    unfold _round1
    have hint1 : (-1 : ℤ) < roundHalfEven ((100 * (1 - groupS0 inp.race inp.sex ^
        Real.exp (lpOf inp - groupMean inp.race inp.sex))) * 10) := by
      have : (-1 : ℝ) < (roundHalfEven ((100 * (1 - groupS0 inp.race inp.sex ^
          Real.exp (lpOf inp - groupMean inp.race inp.sex))) * 10) : ℝ) := by
        nlinarith
      exact_mod_cast this
    have hint2 : roundHalfEven ((100 * (1 - groupS0 inp.race inp.sex ^
        Real.exp (lpOf inp - groupMean inp.race inp.sex))) * 10) < (1001 : ℤ) := by
      have : (roundHalfEven ((100 * (1 - groupS0 inp.race inp.sex ^
          Real.exp (lpOf inp - groupMean inp.race inp.sex))) * 10) : ℝ) < 1001 := by
        nlinarith
      exact_mod_cast this
    have hint1' : (0 : ℤ) ≤ roundHalfEven ((100 * (1 - groupS0 inp.race inp.sex ^
        Real.exp (lpOf inp - groupMean inp.race inp.sex))) * 10) := by omega
    have hint2' : roundHalfEven ((100 * (1 - groupS0 inp.race inp.sex ^
        Real.exp (lpOf inp - groupMean inp.race inp.sex))) * 10) ≤ (1000 : ℤ) := by omega
    have hc1 : (0 : ℝ) ≤ (roundHalfEven ((100 * (1 - groupS0 inp.race inp.sex ^
        Real.exp (lpOf inp - groupMean inp.race inp.sex))) * 10) : ℝ) := by
      exact_mod_cast hint1'
    have hc2 : (roundHalfEven ((100 * (1 - groupS0 inp.race inp.sex ^
        Real.exp (lpOf inp - groupMean inp.race inp.sex))) * 10) : ℝ) ≤ 1000 := by
      exact_mod_cast hint2'
    linarith

/-- Witness for C5 at the typical preset. -/
theorem risk_pct_in_0_100_witness :
    ((40 : ℝ) ≤ typicalInputs.age_years ∧ typicalInputs.age_years ≤ 79 ∧
      0 < typicalInputs.total_chol_mgdl ∧ 0 < typicalInputs.hdl_mgdl ∧
      0 < typicalInputs.sbp_mmhg) ∧
    ∃ r, (compute_10y_ascvd_pce2013 typicalInputs).risk_pct_10y = some r ∧
      0 ≤ r ∧ r ≤ 100 :=
  ⟨⟨by norm_num [typicalInputs], by norm_num [typicalInputs], by norm_num [typicalInputs],
    by norm_num [typicalInputs], by norm_num [typicalInputs]⟩,
    risk_pct_in_0_100 typicalInputs (by norm_num [typicalInputs])
      (by norm_num [typicalInputs]) (by norm_num [typicalInputs])
      (by norm_num [typicalInputs]) (by norm_num [typicalInputs])⟩

/-- C6 counterexample: at a white-male input with age `exp 4.368 ≈ 78.9`
(inside `[40, 79]`) and strictly positive numeric fields, flipping `smoker`
from `false` to `true` strictly decreases the computed risk percentage
(from 8.6 down to at most 8.5): the white-male age-smoking interaction
`7.837 - 1.795 * ln(age)` is negative for ages above `exp(7.837/1.795) ≈ 78.7`. -/
theorem smoker_monotone_cex :
    (40 ≤ wmBase.age_years ∧ wmBase.age_years ≤ 79 ∧
      0 < wmBase.total_chol_mgdl ∧ 0 < wmBase.hdl_mgdl ∧
      0 < wmBase.sbp_mmhg ∧ wmBase.smoker = false) ∧
    ∃ r0 r1, risk_or_none wmBase = some r0 ∧
      risk_or_none { wmBase with smoker := true } = some r1 ∧ r1 < r0 := by
  refine ⟨⟨exp_4368_lb, exp_4368_ub, Real.exp_pos _, Real.exp_pos _,
    Real.exp_pos _, rfl⟩, ?_⟩
  obtain ⟨r1, h1, hlt⟩ := wm_smoker_pct_lt
  exact ⟨8.6, r1, wm_base_pct, h1, hlt⟩

/-- C6 (amended): for every input with `age_years` in `[40, 79]` and strictly
positive numeric fields, increasing `sbp_mmhg` (holding everything else,
including `on_bp_meds`, fixed) never decreases the computed risk percentage;
and, provided additionally `age_years ≤ 78`, changing `smoker` from `false`
to `true` never decreases the computed risk percentage.  (The age
restriction on the smoker part is forced by the counterexample: for the
white-male group the smoking contribution `7.837 - 1.795 * ln(age)` turns
negative just below age 79.) -/
theorem risk_monotone_sbp_smoker (inp : RiskInputs)
    (h40 : 40 ≤ inp.age_years) (h79 : inp.age_years ≤ 79)
    (htc : 0 < inp.total_chol_mgdl) (hhdl : 0 < inp.hdl_mgdl)
    (hsbp : 0 < inp.sbp_mmhg) :
    (∀ s1 s2 : ℝ, 0 < s1 → s1 ≤ s2 →
      ∃ r1 r2, risk_or_none { inp with sbp_mmhg := s1 } = some r1 ∧
        risk_or_none { inp with sbp_mmhg := s2 } = some r2 ∧ r1 ≤ r2) ∧
    (inp.age_years ≤ 78 →
      ∃ r1 r2, risk_or_none { inp with smoker := false } = some r1 ∧
        risk_or_none { inp with smoker := true } = some r2 ∧ r1 ≤ r2) := by
  constructor
  · intro s1 s2 hs1 h12
    unfold risk_or_none
    rw [compute_in_range { inp with sbp_mmhg := s1 } h40 h79,
      compute_in_range { inp with sbp_mmhg := s2 } h40 h79]
    refine ⟨_, _, rfl, rfl, ?_⟩
    exact pct_mono_in_lp (groupS0_pos _ _) (groupS0_lt_one _ _).le
      (lp_update_sbp_mono inp.age_years inp.sex inp.race inp.total_chol_mgdl
        inp.hdl_mgdl inp.on_bp_meds inp.smoker inp.diabetes (by linarith) h79 hs1 h12)
  · intro h78
    unfold risk_or_none
    rw [compute_in_range { inp with smoker := false } h40 h79,
      compute_in_range { inp with smoker := true } h40 h79]
    refine ⟨_, _, rfl, rfl, ?_⟩
    exact pct_mono_in_lp (groupS0_pos _ _) (groupS0_lt_one _ _).le
      (lp_update_smoker_mono inp.age_years inp.sex inp.race inp.total_chol_mgdl
        inp.hdl_mgdl inp.sbp_mmhg inp.on_bp_meds inp.diabetes (by linarith) h78)

/-- Witness for the amended C6 at the typical preset. -/
theorem risk_monotone_sbp_smoker_witness :
    ((40 : ℝ) ≤ typicalInputs.age_years ∧ typicalInputs.age_years ≤ 79 ∧
      0 < typicalInputs.total_chol_mgdl ∧ 0 < typicalInputs.hdl_mgdl ∧
      0 < typicalInputs.sbp_mmhg) ∧
    ((∀ s1 s2 : ℝ, 0 < s1 → s1 ≤ s2 →
      ∃ r1 r2, risk_or_none { typicalInputs with sbp_mmhg := s1 } = some r1 ∧
        risk_or_none { typicalInputs with sbp_mmhg := s2 } = some r2 ∧ r1 ≤ r2) ∧
    (typicalInputs.age_years ≤ 78 →
      ∃ r1 r2, risk_or_none { typicalInputs with smoker := false } = some r1 ∧
        risk_or_none { typicalInputs with smoker := true } = some r2 ∧ r1 ≤ r2)) :=
  ⟨⟨by norm_num [typicalInputs], by norm_num [typicalInputs], by norm_num [typicalInputs],
    by norm_num [typicalInputs], by norm_num [typicalInputs]⟩,
    risk_monotone_sbp_smoker typicalInputs (by norm_num [typicalInputs])
      (by norm_num [typicalInputs]) (by norm_num [typicalInputs])
      (by norm_num [typicalInputs]) (by norm_num [typicalInputs])⟩

/-- C7: the model is total on in-range ages with strictly positive numeric
fields — the checked evaluation (with `math.log`'s domain error modelled)
returns `ok` with exactly the result of the pure model, and the risk
percentage is present (and finite, being a real number). -/
theorem no_domain_error (inp : RiskInputs)
    (h40 : 40 ≤ inp.age_years) (h79 : inp.age_years ≤ 79)
    (htc : 0 < inp.total_chol_mgdl) (hhdl : 0 < inp.hdl_mgdl)
    (hsbp : 0 < inp.sbp_mmhg) :
    computeE inp = Except.ok (compute_10y_ascvd_pce2013 inp) ∧
    ∃ r, (compute_10y_ascvd_pce2013 inp).risk_pct_10y = some r := by
  refine ⟨computeE_ok inp h40 h79 htc hhdl hsbp, ?_⟩
  rw [compute_in_range inp h40 h79]
  exact ⟨_, rfl⟩

/-- Witness for C7 at the typical preset. -/
theorem no_domain_error_witness :
    ((40 : ℝ) ≤ typicalInputs.age_years ∧ typicalInputs.age_years ≤ 79 ∧
      0 < typicalInputs.total_chol_mgdl ∧ 0 < typicalInputs.hdl_mgdl ∧
      0 < typicalInputs.sbp_mmhg) ∧
    (computeE typicalInputs = Except.ok (compute_10y_ascvd_pce2013 typicalInputs) ∧
      ∃ r, (compute_10y_ascvd_pce2013 typicalInputs).risk_pct_10y = some r) :=
  ⟨⟨by norm_num [typicalInputs], by norm_num [typicalInputs], by norm_num [typicalInputs],
    by norm_num [typicalInputs], by norm_num [typicalInputs]⟩,
    no_domain_error typicalInputs (by norm_num [typicalInputs])
      (by norm_num [typicalInputs]) (by norm_num [typicalInputs])
      (by norm_num [typicalInputs]) (by norm_num [typicalInputs])⟩

/-- C8 (amended): for `months ≥ 1` the timeline has `months + 1` rows; the
row at step `m`, with ratio `t = m / months`, is the model evaluated on a
snapshot whose numeric fields (total cholesterol, HDL, SBP) are linearly
interpolated, whose `smoker` and `on_bp_meds` take the baseline value for
`t < 0.5` and the scenario value for `t ≥ 0.5`, whose age is held at the
baseline value — and whose `diabetes` always takes the scenario's value
(the code does not switch `diabetes` at the midpoint). -/
theorem compute_timeline_spec (base scen : RiskInputs) (months : ℕ) (hm : 1 ≤ months) :
    (compute_timeline base scen months).length = months + 1 ∧
    ∀ m : ℕ, m ≤ months →
      (compute_timeline base scen months).get? m =
        some (m, risk_or_none
          { age_years := base.age_years
            sex := base.sex
            race := base.race
            total_chol_mgdl :=
              _lerp base.total_chol_mgdl scen.total_chol_mgdl ((m : ℝ) / (months : ℝ))
            hdl_mgdl := _lerp base.hdl_mgdl scen.hdl_mgdl ((m : ℝ) / (months : ℝ))
            sbp_mmhg := _lerp base.sbp_mmhg scen.sbp_mmhg ((m : ℝ) / (months : ℝ))
            on_bp_meds :=
              if (m : ℝ) / (months : ℝ) < 0.5 then base.on_bp_meds else scen.on_bp_meds
            smoker := if (m : ℝ) / (months : ℝ) < 0.5 then base.smoker else scen.smoker
            diabetes := scen.diabetes }) := by
  constructor
  · simp [compute_timeline]
  · intro m hmle
    rw [compute_timeline_get base scen months m hmle,
      timelineStep_claim_shape base scen months m hm]

/-- Witness for the amended C8 on a concrete pair over two months. -/
theorem compute_timeline_spec_witness :
    1 ≤ 2 ∧
    ((compute_timeline typicalInputs { typicalInputs with smoker := true } 2).length = 2 + 1 ∧
    ∀ m : ℕ, m ≤ 2 →
      (compute_timeline typicalInputs { typicalInputs with smoker := true } 2).get? m =
        some (m, risk_or_none
          { age_years := typicalInputs.age_years
            sex := typicalInputs.sex
            race := typicalInputs.race
            total_chol_mgdl :=
              _lerp typicalInputs.total_chol_mgdl
                ({ typicalInputs with smoker := true } : RiskInputs).total_chol_mgdl
                ((m : ℝ) / ((2 : ℕ) : ℝ))
            hdl_mgdl := _lerp typicalInputs.hdl_mgdl
                ({ typicalInputs with smoker := true } : RiskInputs).hdl_mgdl
                ((m : ℝ) / ((2 : ℕ) : ℝ))
            sbp_mmhg := _lerp typicalInputs.sbp_mmhg
                ({ typicalInputs with smoker := true } : RiskInputs).sbp_mmhg
                ((m : ℝ) / ((2 : ℕ) : ℝ))
            on_bp_meds := if (m : ℝ) / ((2 : ℕ) : ℝ) < 0.5 then typicalInputs.on_bp_meds
              else ({ typicalInputs with smoker := true } : RiskInputs).on_bp_meds
            smoker := if (m : ℝ) / ((2 : ℕ) : ℝ) < 0.5 then typicalInputs.smoker
              else ({ typicalInputs with smoker := true } : RiskInputs).smoker
            diabetes := ({ typicalInputs with smoker := true } : RiskInputs).diabetes })) :=
  ⟨by norm_num,
    compute_timeline_spec typicalInputs { typicalInputs with smoker := true } 2 (by norm_num)⟩

/-- C8 counterexample: with a baseline and a scenario that differ only in
`diabetes`, the claim as stated predicts that the step-0 row (ratio
`0 < 0.5`) is the model on the all-baseline snapshot, i.e.
`(0, risk_or_none wmBase)`; the code instead evaluates `diabetes` at the
scenario's value from the very first step, giving a different percentage
(at least 15.4% versus 8.6%). -/
theorem timeline_diabetes_cex :
    (compute_timeline wmBase { wmBase with diabetes := true } 1).get? 0 ≠
      some (0, risk_or_none wmBase) := by
  have hstep : timelineStep wmBase { wmBase with diabetes := true } 1 0 =
      { wmBase with diabetes := true } := by
    rw [timelineStep_claim_shape _ _ 1 0 (le_refl 1)]
    simp [RiskInputs.mk.injEq, _lerp]
  rw [compute_timeline_get wmBase { wmBase with diabetes := true } 1 0 (by norm_num), hstep]
  obtain ⟨rD, hrD, hgt⟩ := wm_diab_pct_gt
  rw [hrD, wm_base_pct]
  intro h
  rw [Option.some.injEq, Prod.mk.injEq, Option.some.injEq] at h
  exact absurd (h.2 ▸ hgt) (lt_irrefl _)

/-- C9: For input pairs with in-range ages, the driver list records, for each
changed candidate field, the delta between the model on the baseline with
exactly that one field swapped and the baseline risk; for two inputs
differing only in `smoker` and `sbp_mmhg` the result is exactly the two
single-field hybrid deltas; and the returned list is sorted by descending
absolute delta. -/
theorem compute_drivers_spec (base scen : RiskInputs)
    (hb40 : 40 ≤ base.age_years) (hb79 : base.age_years ≤ 79)
    (hs40 : 40 ≤ scen.age_years) (hs79 : scen.age_years ≤ 79) :
    (compute_drivers base scen).Sorted (fun a b => |b.2| ≤ |a.2|) ∧
    ((base.smoker ≠ scen.smoker ∧ base.sbp_mmhg ≠ scen.sbp_mmhg ∧
      base.sex = scen.sex ∧ base.race = scen.race ∧
      base.age_years = scen.age_years ∧
      base.total_chol_mgdl = scen.total_chol_mgdl ∧
      base.hdl_mgdl = scen.hdl_mgdl ∧
      base.on_bp_meds = scen.on_bp_meds ∧ base.diabetes = scen.diabetes) →
      ∃ bR r1 r2, risk_or_none base = some bR ∧
        risk_or_none { base with smoker := scen.smoker } = some r1 ∧
        risk_or_none { base with sbp_mmhg := scen.sbp_mmhg } = some r2 ∧
        compute_drivers base scen =
          if |r2 - bR| ≤ |r1 - bR| then
            [("Smoking", r1 - bR), ("Systolic BP", r2 - bR)]
          else [("Systolic BP", r2 - bR), ("Smoking", r1 - bR)]) := by
  have hbr : risk_or_none base = some (_round1 (100 * (1 -
      groupS0 base.race base.sex ^
        Real.exp (lpOf base - groupMean base.race base.sex)))) := by
    unfold risk_or_none
    rw [compute_in_range base hb40 hb79]
  have hscr : risk_or_none scen = some (_round1 (100 * (1 -
      groupS0 scen.race scen.sex ^
        Real.exp (lpOf scen - groupMean scen.race scen.sex)))) := by
    unfold risk_or_none
    rw [compute_in_range scen hs40 hs79]
  constructor
  · unfold compute_drivers
    rw [hbr, hscr]
    exact sortDesc_sorted _
  · rintro ⟨hsm, hsbp, -, -, -, htc, hhdl, hmeds, hdiab⟩
    have h1 : risk_or_none { base with smoker := scen.smoker } =
        some (_round1 (100 * (1 - groupS0 base.race base.sex ^
          Real.exp (lpOf { base with smoker := scen.smoker } -
            groupMean base.race base.sex)))) := by
      unfold risk_or_none
      rw [compute_in_range { base with smoker := scen.smoker } hb40 hb79]
    have h2 : risk_or_none { base with sbp_mmhg := scen.sbp_mmhg } =
        some (_round1 (100 * (1 - groupS0 base.race base.sex ^
          Real.exp (lpOf { base with sbp_mmhg := scen.sbp_mmhg } -
            groupMean base.race base.sex)))) := by
      unfold risk_or_none
      rw [compute_in_range { base with sbp_mmhg := scen.sbp_mmhg } hb40 hb79]
    refine ⟨_, _, _, hbr, h1, h2, ?_⟩
    unfold compute_drivers
    rw [hbr, hscr]
    simp only [driverCandidates, List.filterMap_cons, List.filterMap_nil,
      with_one_change, driverLabel, fieldChanged]
    rw [if_pos hsm, if_pos hsbp,
      if_neg (not_not_intro hmeds), if_neg (not_not_intro htc),
      if_neg (not_not_intro hhdl), if_neg (not_not_intro hdiab),
      h1, h2]
    rw [sortDesc_pair]

/-- Witness for C9 on a pair differing only in `smoker` and `sbp_mmhg`. -/
theorem compute_drivers_spec_witness :
    ((40 : ℝ) ≤ typicalInputs.age_years ∧ typicalInputs.age_years ≤ 79 ∧
      (40 : ℝ) ≤ ({ typicalInputs with smoker := true, sbp_mmhg := 130 } : RiskInputs).age_years ∧
      ({ typicalInputs with smoker := true, sbp_mmhg := 130 } : RiskInputs).age_years ≤ 79 ∧
      typicalInputs.smoker ≠ ({ typicalInputs with smoker := true, sbp_mmhg := 130 } : RiskInputs).smoker ∧
      typicalInputs.sbp_mmhg ≠ ({ typicalInputs with smoker := true, sbp_mmhg := 130 } : RiskInputs).sbp_mmhg) ∧
    ((compute_drivers typicalInputs
        { typicalInputs with smoker := true, sbp_mmhg := 130 }).Sorted
          (fun a b => |b.2| ≤ |a.2|) ∧
      ∃ bR r1 r2, risk_or_none typicalInputs = some bR ∧
        risk_or_none { typicalInputs with
          smoker := ({ typicalInputs with smoker := true, sbp_mmhg := 130 } : RiskInputs).smoker } = some r1 ∧
        risk_or_none { typicalInputs with
          sbp_mmhg := ({ typicalInputs with smoker := true, sbp_mmhg := 130 } : RiskInputs).sbp_mmhg } = some r2 ∧
        compute_drivers typicalInputs { typicalInputs with smoker := true, sbp_mmhg := 130 } =
          if |r2 - bR| ≤ |r1 - bR| then
            [("Smoking", r1 - bR), ("Systolic BP", r2 - bR)]
          else [("Systolic BP", r2 - bR), ("Smoking", r1 - bR)]) := by
  have hmain := compute_drivers_spec typicalInputs
    { typicalInputs with smoker := true, sbp_mmhg := 130 }
    (by norm_num [typicalInputs]) (by norm_num [typicalInputs])
    (by norm_num [typicalInputs]) (by norm_num [typicalInputs])
  refine ⟨⟨by norm_num [typicalInputs], by norm_num [typicalInputs],
    by norm_num [typicalInputs], by norm_num [typicalInputs],
    by simp [typicalInputs], by show (120 : ℝ) ≠ 130; norm_num⟩,
    hmain.1, hmain.2 ⟨by simp [typicalInputs], by show (120 : ℝ) ≠ 130; norm_num,
      rfl, rfl, rfl, rfl, rfl, rfl, rfl⟩⟩

/-- C10: `compute_drivers` returns the empty list whenever the baseline's or
the scenario's risk is absent (age outside `[40, 79]`), even if the two
input sets differ in many fields; no partial attribution is produced. -/
theorem drivers_empty_if_absent (base scen : RiskInputs)
    (h : risk_or_none base = none ∨ risk_or_none scen = none) :
    compute_drivers base scen = [] := by
  unfold compute_drivers
  rcases h with h | h
  · rw [h]
  · rcases hb : risk_or_none base with _ | br
    · rfl
    · rw [h]

/-- Witness for C10: an out-of-range baseline (age 30) against the typical
preset, which differ in several fields, still yields no attributions. -/
theorem drivers_empty_if_absent_witness :
    (risk_or_none { typicalInputs with age_years := 30, smoker := true } = none ∨
      risk_or_none typicalInputs = none) ∧
    compute_drivers { typicalInputs with age_years := 30, smoker := true }
      typicalInputs = [] := by
  have h : risk_or_none { typicalInputs with age_years := 30, smoker := true } = none := by
    unfold risk_or_none compute_10y_ascvd_pce2013
    rw [if_pos (Or.inl (by show (30 : ℝ) < 40; norm_num))]
  exact ⟨Or.inl h, drivers_empty_if_absent _ _ (Or.inl h)⟩
